import Mathlib

/-!
Verification of the SMSRPy repository against its specification.

The repository's algorithmic core is `SimpleMarioWorld._setup_world` in
`src/starroad4k6.8.25.py`: it seeds Python's global `random` module with
`hash(course_name)`, then walks a 20 x 20 grid (outer loop over `x`, inner
loop over `z`), skips the origin cell `(0, 0)` (whose platform entity was
placed unconditionally before the loop), draws one `random.random()` sample
`r` per remaining cell and places nothing when `r < p_empty`, a green cube
(platform) at `(x*cell_size, 0, z*cell_size)` when `r < p_empty + p_platform`,
and a red sphere (obstacle) at `(x*cell_size, 1, z*cell_size)` otherwise.

The embedding below models Python integers as `Int`, Python floats as exact
rationals `Rat` (the spec reasons about the probability thresholds as real
numbers), and the `random` module's process-global state as an explicit
`PyRandomState` value threaded through the call.  The seeded generator
`random.seed(n); random.random(); ...` is a fixed deterministic algorithm,
so it is modelled as an arbitrary stream `mt : Int -> Nat -> Rat`: after
seeding with `n`, the `k`-th draw is `mt n k`.  Python's built-in `hash` on
strings is salted per process (PYTHONHASHSEED), so it is modelled as a
parameter `pyHash : String -> Int`: one concrete `pyHash` per process run.

Also embedded: the `CourseBrowser` widget (scroll / set_courses / selection)
from the same file, and the narrative slideshow state of
`src/supermarioss.py` (`story_index`, `star_count`, `progress_story`).
-/

namespace StarRoad

/-- The three classifications a grid cell can receive (spec's CellKind). -/
inductive CellKind : Type where
  | Empty : CellKind
  | Platform : CellKind
  | Obstacle : CellKind
deriving DecidableEq, Repr

/-- Python's `range(n)` over an `int` argument: empty when `n <= 0`. -/
def pyRange (n : ℤ) : List ℤ :=
  (List.range n.toNat).map (fun i => (i : ℤ))

/-- The traversal order of the nested loops of `_setup_world` (lines 170-171):
outer loop over `x in range(grid_size)`, inner loop over `z in range(grid_size)`,
i.e. row-major order. -/
def cellList (gs : ℤ) : List (ℤ × ℤ) :=
  (pyRange gs).flatMap (fun x => (pyRange gs).map (fun z => (x, z)))

/-- The classification of one draw `r` (lines 174-183): `continue` (Empty)
when `r < p_empty`, a platform when `r < p_empty + p_platform` in the `elif`,
an obstacle in the `else`. -/
def classify (pE pP r : ℚ) : CellKind :=
  if r < pE then CellKind.Empty
  else if r < pE + pP then CellKind.Platform
  else CellKind.Obstacle

/-- The loop body of `_setup_world` (lines 170-183) over an explicit list of
cells, threading the number of `random.random()` draws consumed so far: the
origin test `if x == 0 and z == 0: continue` skips the cell before any draw;
every other cell consumes exactly one draw `stream k`. Returns the classified
cells in traversal order together with the final draw count. -/
def genCellsAux (stream : ℕ → ℚ) (pE pP : ℚ) :
    List (ℤ × ℤ) → ℕ → List ((ℤ × ℤ) × CellKind) × ℕ
  | [], k => ([], k)
  | c :: cs, k =>
    if c.1 = 0 ∧ c.2 = 0 then
      genCellsAux stream pE pP cs k
    else
      let r := stream k
      let rest := genCellsAux stream pE pP cs (k + 1)
      ((c, classify pE pP r) :: rest.1, rest.2)

/-- The cells of `cs` other than the origin `(0, 0)`. -/
def nonOrigin (cs : List (ℤ × ℤ)) : List (ℤ × ℤ) :=
  cs.filter (fun c => !decide (c.1 = 0 ∧ c.2 = 0))

/-- The classified non-origin cells produced by the grid loop, starting from a
freshly seeded stream (draw count 0). -/
def genCells (stream : ℕ → ℚ) (gs : ℤ) (pE pP : ℚ) : List ((ℤ × ℤ) × CellKind) :=
  (genCellsAux stream pE pP (cellList gs) 0).1

/-- The full classification sequence of `_setup_world`: the origin platform is
placed unconditionally before the loop (line 167), so the origin cell is
Platform and heads the sequence; the loop's cells follow. -/
def setupCells (stream : ℕ → ℚ) (gs : ℤ) (pE pP : ℚ) : List ((ℤ × ℤ) × CellKind) :=
  ((0, 0), CellKind.Platform) :: genCells stream gs pE pP

/-- The two collidable shapes `_setup_world` instantiates: a green cube
(`model='cube'`) for platforms and a red sphere (`model='sphere'`) for
obstacles. -/
inductive Shape : Type where
  | box : Shape
  | sphere : Shape
deriving DecidableEq, Repr

/-- The entity (shape and world position) the loop body places for one
classified cell (lines 174-183): nothing for Empty (`continue`), a cube at
`pos = (x*cell_size, 0, z*cell_size)` for Platform, a sphere at
`(pos[0], 1, pos[2])` for Obstacle. -/
def entityFor (cellSize : ℚ) (c : ℤ × ℤ) : CellKind → Option (Shape × ℚ × ℚ × ℚ)
  | CellKind.Empty => none
  | CellKind.Platform => some (Shape.box, ((c.1 : ℚ) * cellSize, 0, (c.2 : ℚ) * cellSize))
  | CellKind.Obstacle => some (Shape.sphere, ((c.1 : ℚ) * cellSize, 1, (c.2 : ℚ) * cellSize))

/-- The geometry `_setup_world` places, in creation order: the unconditional
origin platform cube at `(0, 0, 0)` (line 167), then one entity per non-Empty
loop cell. (The decorative skybox of line 186 is not collidable course
geometry and is omitted.) -/
def placeWorld (stream : ℕ → ℚ) (gs : ℤ) (cellSize pE pP : ℚ) :
    List (Shape × ℚ × ℚ × ℚ) :=
  (Shape.box, (0, 0, 0)) ::
    (genCells stream gs pE pP).filterMap (fun e => entityFor cellSize e.1 e.2)

/-- The state of Python's process-global `random` module, as far as this
program exercises it: the seed last passed to `random.seed` and the number of
`random.random()` draws made since. `random.seed(n)` replaces the whole
state; each draw increments the count. -/
structure PyRandomState : Type where
  seedValue : ℤ
  drawCount : ℕ
deriving DecidableEq, Repr

/-- `random.seed(n)` (line 157): resets the global generator state. -/
def pySeed (n : ℤ) (_g : PyRandomState) : PyRandomState :=
  { seedValue := n, drawCount := 0 }

/-- `SimpleMarioWorld._setup_world` (lines 155-183) as a transformer of the
global `random` state: seed with `pyHash course_name` (line 157, Python's
salted built-in string hash is the parameter `pyHash`), then run the grid
loop with the code's constants `grid_size = 20`, `p_empty = 0.7`,
`p_platform = 0.2`.  `mt n k` is the `k`-th `random.random()` after
`random.seed(n)` (Python's generator is a fixed deterministic algorithm).
Returns the classification sequence and the final global `random` state. -/
def setup_world (pyHash : String → ℤ) (mt : ℤ → ℕ → ℚ) (course_name : String)
    (g : PyRandomState) : List ((ℤ × ℤ) × CellKind) × PyRandomState :=
  let g1 := pySeed (pyHash course_name) g
  let out := genCellsAux (mt g1.seedValue) (7/10) (2/10) (cellList 20) g1.drawCount
  (((0, 0), CellKind.Platform) :: out.1, { seedValue := g1.seedValue, drawCount := out.2 })

/-- The spec's error taxonomy for the generator. -/
inductive GenError : Type where
  | parameterValidation : GenError
deriving DecidableEq, Repr

/-- The generation call under Python exception semantics: a raised exception
would surface as `Except.error`.  The source contains no parameter check and
no `raise` anywhere on this path (`_setup_world`, lines 155-186), so the
embedding returns `Except.ok` of the classification sequence for every
parameter value — negative sizes just make `range(grid_size)` empty. -/
def generateRun (stream : ℕ → ℚ) (gs : ℤ) (pE pP : ℚ) :
    Except GenError (List ((ℤ × ℤ) × CellKind)) :=
  Except.ok (setupCells stream gs pE pP)

/-- The generator's preconditions as the spec states them (section 4.1):
positive size, probabilities in `[0, 1]`, total mass at most 1.  Modelled
from the spec for comparison with the code, which nowhere checks them. -/
def specValidParams (gs : ℤ) (pE pP : ℚ) : Prop :=
  0 < gs ∧ 0 ≤ pE ∧ pE ≤ 1 ∧ 0 ≤ pP ∧ pP ≤ 1 ∧ pE + pP ≤ 1

instance (gs : ℤ) (pE pP : ℚ) : Decidable (specValidParams gs pE pP) := by
  unfold specValidParams
  infer_instance

/-- A concrete pseudo-random stream used to instantiate witnesses: the `k`-th
draw after seeding with `n` is `((n + k) mod 10) / 10`, always in `[0, 1)`. -/
def mtDemo (n : ℤ) (k : ℕ) : ℚ :=
  (((n + k) % 10).toNat : ℚ) / 10

/-- A concrete draw stream for witnesses, independent of any seed. -/
def streamDemo : ℕ → ℚ :=
  mtDemo 0

/-- A PRNG model separating seeds: every draw after seeding with 0 is `0`,
every draw after any other seed is `1`.  Used to exhibit that the generated
layout depends on the integer the course name hashes to. -/
def mtFlip (n : ℤ) (_k : ℕ) : ℚ :=
  if n = 0 then 0 else 1

/-- The all-zero draw stream (decidable evaluation in witnesses). -/
def streamZero : ℕ → ℚ :=
  fun _ => 0

/-- One course of the static catalog (the `Course` dataclass, lines 30-41):
display name, star rating, unlock requirement, optional acts and coin count. -/
structure Course : Type where
  name : String
  stars : ℤ
  requirement : String
  acts : Option ℤ
  coins : Option ℤ
deriving DecidableEq, Repr

/-- Ursina's `clamp(value, floor, ceiling) = max(min(value, ceiling), floor)`,
as used by `CourseBrowser.scroll` (line 110). -/
def clamp (value lo hi : ℤ) : ℤ :=
  max (min value hi) lo

/-- The state of the `CourseBrowser` widget (lines 92-131): the current course
list, the index of the first visible row, the selected index, and the fixed
page size `visible_rows = 10`.  (The `Text` items are display only.) -/
structure CourseBrowser : Type where
  courses : List Course
  scroll_index : ℤ
  selected : ℤ
  visible_rows : ℤ
deriving DecidableEq, Repr

/-- `CourseBrowser.__init__` (lines 93-101): `scroll_index = 0`,
`selected = 0`, `visible_rows = 10`. -/
def CourseBrowser.init (courses : List Course) : CourseBrowser :=
  { courses := courses, scroll_index := 0, selected := 0, visible_rows := 10 }

/-- `CourseBrowser.set_courses` (lines 103-107): swap in a new list and reset
both indices to 0. -/
def CourseBrowser.set_courses (b : CourseBrowser) (courses : List Course) : CourseBrowser :=
  { b with courses := courses, scroll_index := 0, selected := 0 }

/-- `CourseBrowser.scroll` (lines 109-115): clamp the moved selection into
`[0, len(courses) - 1]`, then pull `scroll_index` up or down so the selection
stays inside the visible window. -/
def CourseBrowser.scroll (b : CourseBrowser) (amount : ℤ) : CourseBrowser :=
  let selected := clamp (b.selected + amount) 0 ((b.courses.length : ℤ) - 1)
  let scroll_index :=
    if selected < b.scroll_index then selected
    else if b.scroll_index + b.visible_rows ≤ selected then selected - b.visible_rows + 1
    else b.scroll_index
  { b with selected := selected, scroll_index := scroll_index }

/-- `CourseBrowser.get_selected_course` (lines 130-131):
`self.courses[self.selected]`.  For the in-range indices the invariant
guarantees (`0 ≤ selected < len`), Python indexing returns the element;
out-of-range access, which Python would raise on, is `none` here. -/
def CourseBrowser.get_selected_course (b : CourseBrowser) : Option Course :=
  b.courses[b.selected.toNat]?

/-- The two browser operations a browser-mode key press can trigger
(lines 288-296): UP/DOWN arrows call `scroll`, TAB calls `set_courses`. -/
inductive BrowserOp : Type where
  | scroll (amount : ℤ) : BrowserOp
  | set_courses (courses : List Course) : BrowserOp
deriving Repr

/-- Run a sequence of browser operations left to right. -/
def runOps (b : CourseBrowser) : List BrowserOp → CourseBrowser
  | [] => b
  | BrowserOp.scroll a :: ops => runOps (b.scroll a) ops
  | BrowserOp.set_courses cs :: ops => runOps (b.set_courses cs) ops

/-- Every course list supplied by a `set_courses` operation is non-empty. -/
def opsOk : List BrowserOp → Prop
  | [] => True
  | BrowserOp.scroll _ :: ops => opsOk ops
  | BrowserOp.set_courses cs :: ops => cs ≠ [] ∧ opsOk ops

/-- The browser invariant: the selection is an in-range index and lies inside
the visible window of `visible_rows` rows starting at `scroll_index`. -/
def BrowserInv (b : CourseBrowser) : Prop :=
  0 ≤ b.selected ∧ b.selected < (b.courses.length : ℤ) ∧
    b.scroll_index ≤ b.selected ∧ b.selected < b.scroll_index + b.visible_rows ∧
    b.visible_rows = 10

/-- The "Main Courses" catalog (lines 43-59). -/
def main_courses : List Course :=
  [ { name := "Bob‑omb Islands", stars := 7, requirement := "0", acts := none, coins := some 147 },
    { name := "Sky Land Resort", stars := 7, requirement := "–", acts := none, coins := some 156 },
    { name := "Piranha Plant Pond", stars := 7, requirement := "–", acts := none, coins := some 151 },
    { name := "Chuckya Harbor", stars := 7, requirement := "8", acts := none, coins := some 202 },
    { name := "Gloomy Garden", stars := 7, requirement := "8", acts := none, coins := some 139 },
    { name := "Colorful Coral Caverns", stars := 7, requirement := "20", acts := none, coins := some 137 },
    { name := "Koopa Canyon", stars := 7, requirement := "30", acts := none, coins := some 152 },
    { name := "Large Leaf Forest", stars := 7, requirement := "20", acts := none, coins := some 132 },
    { name := "Mad Musical Mess", stars := 7, requirement := "30", acts := none, coins := some 154 },
    { name := "Melting Snow Peaks", stars := 7, requirement := "20", acts := none, coins := some 184 },
    { name := "Colossal Candy Clutter", stars := 7, requirement := "40", acts := none, coins := some 211 },
    { name := "Cloudrail Station", stars := 7, requirement := "–", acts := none, coins := some 205 },
    { name := "Fatal Flame Falls", stars := 7, requirement := "–", acts := none, coins := some 152 },
    { name := "Bob‑omb Battle Factory", stars := 7, requirement := "65", acts := none, coins := some 165 },
    { name := "Starlight Runway", stars := 7, requirement := "–", acts := none, coins := some 169 } ]

/-- The "Secret Courses" catalog (lines 60-67). -/
def secret_courses : List Course :=
  [ { name := "Mushroom Mountain Town", stars := 3, requirement := "0", acts := none, coins := some 68 },
    { name := "Creepy Cap Cave", stars := 2, requirement := "8", acts := none, coins := some 37 },
    { name := "Puzzle of the Vanish Cap", stars := 1, requirement := "SR", acts := none, coins := some 28 },
    { name := "Sandy Slide Secret", stars := 3, requirement := "20", acts := none, coins := some 85 },
    { name := "Windy Wing Cap Well", stars := 2, requirement := "40", acts := none, coins := some 70 },
    { name := "Hidden Palace Finale", stars := 1, requirement := "120", acts := none, coins := some 20 } ]

/-- The "Boss Worlds" catalog (lines 68-72). -/
def boss_worlds : List Course :=
  [ { name := "Bowser's Slippery Swamp", stars := 1, requirement := "20 Stars", acts := none, coins := some 90 },
    { name := "Bowser's Retro Remix Castle", stars := 1, requirement := "40 Stars", acts := none, coins := some 51 },
    { name := "Bowser's Rainbow Rumble", stars := 1, requirement := "80 Stars", acts := none, coins := some 56 } ]

end StarRoad

namespace StorySS

/-- The sixteen narrative lines of `src/supermarioss.py` (lines 9-26). -/
def story_lines : List String :=
  [ "Mario finds himself in a strange new world, seeking Power Stars.",
    "A towering fortress stands before him under the twilight sky.",
    "Enemies lurk around, but Mario presses on with determination.",
    "He navigates treacherous paths and narrow ledges with skill.",
    "At the fortress summit, a fierce Goomba King challenges Mario!",
    "Defeated, the Goomba King drops a shining Power Star at Mario's feet.",
    "With a cheer, Mario claims the Power Star, feeling stronger.",
    "A distant gate opens, revealing a new area for Mario to explore.",
    "Mario gathers 8 Red Coins hidden around the fortress grounds.",
    "The Red Coins' energy forms a Power Star above an ancient pedestal.",
    "Mario leaps high and secures the newly formed Power Star in triumph.",
    "A rumble shakes the world – Bowser's laugh echoes in the distance.",
    "Mario races through the opened gate toward Bowser's looming castle.",
    "In the grand hall, Bowser confronts Mario for a final showdown.",
    "With courage and agility, Mario overcomes Bowser's tricks and traps.",
    "Bowser yields, and the final Grand Star appears for Mario to grab." ]

/-- The indices at which a star is collected (line 34, the set `{5, 8, 9, 15}`;
a list models the set, membership is what the code tests). -/
def star_trigger_indices : List ℕ :=
  [5, 8, 9, 15]

/-- The module-level session state of the slideshow: `story_index` (line 30),
`star_count` (line 31), the narrative text on screen (line 38) and whether the
"(Press SPACE to continue)" prompt is enabled (line 47, disabled at the final
line). -/
structure StoryState : Type where
  story_index : ℕ
  star_count : ℕ
  narrative_text : String
  prompt_enabled : Bool
deriving DecidableEq, Repr

/-- The state right after module initialization (lines 30-54). -/
def initState : StoryState :=
  { story_index := 0, star_count := 0,
    narrative_text := story_lines.getD 0 "", prompt_enabled := true }

/-- `progress_story` (lines 67-89): only below the final line, advance
`story_index`, show the new line, collect a star when the new index is a
trigger index, and disable the prompt on reaching the final line; at the
final line the call changes nothing. -/
def progress_story (s : StoryState) : StoryState :=
  if s.story_index < story_lines.length - 1 then
    let i := s.story_index + 1
    { story_index := i,
      star_count := if i ∈ star_trigger_indices then s.star_count + 1 else s.star_count,
      narrative_text := story_lines.getD i "",
      prompt_enabled := if i = story_lines.length - 1 then false else s.prompt_enabled }
  else s

/-- The session state after `n` presses of SPACE (each press calls
`progress_story`, lines 91-94). -/
def afterPresses : ℕ → StoryState
  | 0 => initState
  | n + 1 => progress_story (afterPresses n)

/-- The number of trigger indices that are at most `i`. -/
def triggersUpTo (i : ℕ) : ℕ :=
  (star_trigger_indices.filter (fun t => decide (t ≤ i))).length

end StorySS

namespace StarRoad

/-- Closed form of the grid loop: the produced entries are exactly the
non-origin cells of `cs`, in traversal order, the entry at offset `i`
(numbering from `k`) classified by draw `stream i`; the final draw count is
`k` plus the number of non-origin cells. -/
theorem genCellsAux_eq (stream : ℕ → ℚ) (pE pP : ℚ) (cs : List (ℤ × ℤ)) (k : ℕ) :
    genCellsAux stream pE pP cs k =
      (((nonOrigin cs).enumFrom k).map (fun ic => (ic.2, classify pE pP (stream ic.1))),
       k + (nonOrigin cs).length) := by
  induction cs generalizing k with
  | nil => simp [genCellsAux, nonOrigin]
  | cons c cs ih =>
    by_cases h : c.1 = 0 ∧ c.2 = 0
    · simp [genCellsAux, nonOrigin, h, List.filter_cons, ih k]
    · simp only [genCellsAux, if_neg h, ih (k + 1), nonOrigin, List.filter_cons,
        decide_eq_true_eq, h, not_false_iff, Bool.not_eq_true]
      simp [List.enumFrom, h]
      omega

/-- The loop output as an indexed map over the non-origin traversal. -/
theorem genCells_eq (stream : ℕ → ℚ) (gs : ℤ) (pE pP : ℚ) :
    genCells stream gs pE pP =
      ((nonOrigin (cellList gs)).enum).map (fun ic => (ic.2, classify pE pP (stream ic.1))) := by
  rw [genCells, genCellsAux_eq]
  rfl

/-- The `k`-th loop entry is the `k`-th non-origin cell, classified by the
`k`-th draw. -/
theorem genCells_getElem? (stream : ℕ → ℚ) (gs : ℤ) (pE pP : ℚ) (k : ℕ) :
    (genCells stream gs pE pP)[k]? =
      ((nonOrigin (cellList gs))[k]?).map (fun c => (c, classify pE pP (stream k))) := by
  rw [genCells_eq]
  simp [List.enum, List.getElem?_map, List.getElem?_enumFrom, Option.map_map, Function.comp]
  rfl

/-- The classification sequence `_setup_world` produces, read off `setup_world`:
independent of the incoming global `random` state. -/
theorem setup_world_fst (pyHash : String → ℤ) (mt : ℤ → ℕ → ℚ) (name : String)
    (g : PyRandomState) :
    (setup_world pyHash mt name g).1 =
      ((0, 0), CellKind.Platform) :: genCells (mt (pyHash name)) 20 (7/10) (2/10) := rfl

/-- The global `random` state `_setup_world` leaves behind: reseeded with the
hash of the name and advanced by one draw per non-origin cell. -/
theorem setup_world_snd (pyHash : String → ℤ) (mt : ℤ → ℕ → ℚ) (name : String)
    (g : PyRandomState) :
    (setup_world pyHash mt name g).2 =
      { seedValue := pyHash name, drawCount := (nonOrigin (cellList 20)).length } := by
  simp [setup_world, pySeed, genCellsAux_eq]

end StarRoad

namespace StarRoad

/-- C2: for every level name and valid parameters, the origin cell (0,0) is
always classified Platform (it heads the sequence, pre-placed before the
loop), the loop classifies no origin cell (sampling is skipped entirely for
it), and the total number of draws consumed is exactly the number of
non-origin cells — so the origin consumes no draw and the random sequence
seen by every other cell is unperturbed. -/
theorem origin_platform_consumes_no_draw (stream : ℕ → ℚ) (gs : ℤ) (pE pP : ℚ) :
    (setupCells stream gs pE pP).head? = some ((0, 0), CellKind.Platform)
    ∧ (∀ e ∈ genCells stream gs pE pP, e.1 ≠ ((0 : ℤ), (0 : ℤ)))
    ∧ (genCellsAux stream pE pP (cellList gs) 0).2 = (nonOrigin (cellList gs)).length := by
  refine ⟨rfl, ?_, ?_⟩
  · intro e he
    obtain ⟨k, hk⟩ := List.mem_iff_getElem?.mp he
    rw [genCells_getElem?] at hk
    cases hnn : (nonOrigin (cellList gs))[k]? with
    | none => rw [hnn] at hk; simp at hk
    | some c =>
      rw [hnn] at hk
      have hc : c ∈ nonOrigin (cellList gs) := by
        obtain ⟨hlt, hget⟩ := List.getElem?_eq_some_iff.mp hnn
        exact hget ▸ List.getElem_mem hlt
      have hpred := (List.mem_filter.mp hc).2
      simp only [Bool.not_eq_true', decide_eq_false_iff_not] at hpred
      simp only [Option.map_some'] at hk
      cases hk
      intro heq
      exact hpred ⟨congrArg Prod.fst heq, congrArg Prod.snd heq⟩
  · rw [genCellsAux_eq]
    simp

/-- Witness for C2 at a concrete instance: the loop entry `((0,1), Empty)` of
a 2 x 2 grid is not the origin, and the sequence head is the origin
Platform. -/
theorem origin_platform_consumes_no_draw_witness :
    (((0 : ℤ), (1 : ℤ)), CellKind.Empty) ∈ genCells streamZero 2 1 0
    ∧ ((((0 : ℤ), (1 : ℤ)), CellKind.Empty)).1 ≠ ((0 : ℤ), (0 : ℤ))
    ∧ (setupCells streamZero 2 1 0).head? = some ((0, 0), CellKind.Platform) :=
  ⟨by decide,
   (origin_platform_consumes_no_draw streamZero 2 1 0).2.1 _ (by decide),
   (origin_platform_consumes_no_draw streamZero 2 1 0).1⟩

/-- C3: every non-origin cell consumes exactly one draw — the `k`-th entry is
the `k`-th non-origin cell classified by the single draw `stream k` — and one
draw `r` is classified Empty iff `r < pEmpty`, Platform iff
`pEmpty ≤ r < pEmpty + pPlatform`, and Obstacle iff `pEmpty + pPlatform ≤ r`;
every cell receives exactly one of the three kinds. -/
theorem nonorigin_cell_one_draw_three_kinds (stream : ℕ → ℚ) (gs : ℤ) (pE pP : ℚ)
    (hpP : 0 ≤ pP) :
    (∀ k, (genCells stream gs pE pP)[k]? =
      ((nonOrigin (cellList gs))[k]?).map (fun c => (c, classify pE pP (stream k))))
    ∧ (∀ r : ℚ, (classify pE pP r = CellKind.Empty ↔ r < pE)
        ∧ (classify pE pP r = CellKind.Platform ↔ pE ≤ r ∧ r < pE + pP)
        ∧ (classify pE pP r = CellKind.Obstacle ↔ pE + pP ≤ r))
    ∧ (∀ r : ℚ, classify pE pP r = CellKind.Empty ∨ classify pE pP r = CellKind.Platform
        ∨ classify pE pP r = CellKind.Obstacle) := by
  refine ⟨genCells_getElem? stream gs pE pP, fun r => ?_, fun r => ?_⟩
  · unfold classify
    by_cases h1 : r < pE
    · rw [if_pos h1]
      exact ⟨iff_of_true rfl h1,
        iff_of_false (by simp) (fun hc => absurd h1 (not_lt.mpr hc.1)),
        iff_of_false (by simp) (fun hc => absurd h1 (not_lt.mpr (by linarith)))⟩
    · rw [if_neg h1]
      by_cases h2 : r < pE + pP
      · rw [if_pos h2]
        exact ⟨iff_of_false (by simp) h1,
          iff_of_true rfl ⟨le_of_not_lt h1, h2⟩,
          iff_of_false (by simp) (fun hc => absurd h2 (not_lt.mpr hc))⟩
      · rw [if_neg h2]
        exact ⟨iff_of_false (by simp) h1,
          iff_of_false (by simp) (fun hc => h2 hc.2),
          iff_of_true rfl (le_of_not_lt h2)⟩
  · unfold classify
    split_ifs <;> simp

/-- Witness for C3 at a concrete instance (`pEmpty = 1`, `pPlatform = 0`,
all-zero draws, 2 x 2 grid). -/
theorem nonorigin_cell_one_draw_three_kinds_witness :
    ((0 : ℚ) ≤ 0)
    ∧ ((genCells streamZero 2 1 0)[0]? =
        ((nonOrigin (cellList 2))[0]?).map (fun c => (c, classify 1 0 (streamZero 0))))
    ∧ (classify 1 0 0 = CellKind.Empty ↔ (0 : ℚ) < 1) :=
  ⟨by decide,
   (nonorigin_cell_one_draw_three_kinds streamZero 2 1 0 (by decide)).1 0,
   ((nonorigin_cell_one_draw_three_kinds streamZero 2 1 0 (by decide)).2.1 0).1⟩

/-- C4: one single draw counter serves the whole grid, and the `k`-th draw is
consumed by the `k`-th non-origin cell of the row-major traversal `cellList`
(outer loop over x, inner loop over z); the traversal covers exactly the
cells of `range(gridSize) x range(gridSize)`. -/
theorem draws_consumed_in_row_major_order (stream : ℕ → ℚ) (gs : ℤ) (pE pP : ℚ) :
    genCells stream gs pE pP =
      ((nonOrigin (cellList gs)).enum).map (fun ic => (ic.2, classify pE pP (stream ic.1)))
    ∧ (∀ x z : ℤ, ((x, z) ∈ cellList gs ↔ x ∈ pyRange gs ∧ z ∈ pyRange gs)) := by
  refine ⟨genCells_eq stream gs pE pP, fun x z => ?_⟩
  simp only [cellList, List.mem_flatMap, List.mem_map, Prod.mk.injEq]
  constructor
  · rintro ⟨a, ha, z', hz', rfl, rfl⟩
    exact ⟨ha, hz'⟩
  · rintro ⟨hx, hz⟩
    exact ⟨x, hx, z, hz, rfl, rfl⟩

end StarRoad

namespace StarRoad

/-- Concrete evaluation for the C5 witness: with `pEmpty = 0`, `pPlatform = 1`
and all-zero draws, every non-origin cell of the 2 x 2 grid is a Platform. -/
theorem genCells_allPlatform_demo :
    genCells streamZero 2 0 1 =
      [(((0 : ℤ), (1 : ℤ)), CellKind.Platform), (((1 : ℤ), (0 : ℤ)), CellKind.Platform),
       (((1 : ℤ), (1 : ℤ)), CellKind.Platform)] := by
  have hnn : nonOrigin (cellList 2) =
      [((0 : ℤ), (1 : ℤ)), ((1 : ℤ), (0 : ℤ)), ((1 : ℤ), (1 : ℤ))] := by decide
  rw [genCells_eq, hnn]
  norm_num [List.enum, List.enumFrom, classify, streamZero]

/-- C5: the origin platform cube sits at `(0, 0, 0)`; every Platform cell's
cube is placed at `(x*cellSize, 0, z*cellSize)` (flush with y = 0) and every
Obstacle cell's sphere at `(x*cellSize, 1, z*cellSize)` (one unit above the
platform plane). -/
theorem geometry_at_mapped_positions (stream : ℕ → ℚ) (gs : ℤ) (cellSize pE pP : ℚ) :
    (Shape.box, ((0 : ℚ), (0 : ℚ), (0 : ℚ))) ∈ placeWorld stream gs cellSize pE pP
    ∧ ∀ x z : ℤ, ∀ kind : CellKind,
        ((x, z), kind) ∈ genCells stream gs pE pP →
          (kind = CellKind.Platform →
            (Shape.box, ((x : ℚ) * cellSize, 0, (z : ℚ) * cellSize)) ∈
              placeWorld stream gs cellSize pE pP)
          ∧ (kind = CellKind.Obstacle →
            (Shape.sphere, ((x : ℚ) * cellSize, 1, (z : ℚ) * cellSize)) ∈
              placeWorld stream gs cellSize pE pP) := by
  refine ⟨List.mem_cons_self _ _, fun x z kind hmem => ⟨fun hk => ?_, fun hk => ?_⟩⟩
  · subst hk
    exact List.mem_cons_of_mem _
      (List.mem_filterMap.mpr ⟨((x, z), CellKind.Platform), hmem, rfl⟩)
  · subst hk
    exact List.mem_cons_of_mem _
      (List.mem_filterMap.mpr ⟨((x, z), CellKind.Obstacle), hmem, rfl⟩)

/-- Witness for C5: the Platform cell `(0, 1)` of the demo grid places its box
at `(0 * 2, 0, 1 * 2)`. -/
theorem geometry_at_mapped_positions_witness :
    (((0 : ℤ), (1 : ℤ)), CellKind.Platform) ∈ genCells streamZero 2 0 1
    ∧ (Shape.box, (((0 : ℤ) : ℚ) * 2, 0, ((1 : ℤ) : ℚ) * 2)) ∈ placeWorld streamZero 2 2 0 1 := by
  have hmem : (((0 : ℤ), (1 : ℤ)), CellKind.Platform) ∈ genCells streamZero 2 0 1 := by
    rw [genCells_allPlatform_demo]
    exact List.mem_cons_self _ _
  exact ⟨hmem,
    ((geometry_at_mapped_positions streamZero 2 2 0 1).2 0 1 CellKind.Platform hmem).1 rfl⟩

/-- C6 counterexample: called with an invalid size (`gridSize = -1`) and
invalid probabilities (`pEmpty + pPlatform = 13/10 > 1`), the generation call
does not fail: it returns normally with just the origin platform
(`range(-1)` is empty), no `ParameterValidationError` anywhere. -/
theorem invalid_params_still_ok :
    generateRun streamDemo (-1) (8/10) (5/10) =
      Except.ok [(((0 : ℤ), (0 : ℤ)), CellKind.Platform)] := rfl

/-- C6 amended: the code performs no parameter validation at all — for every
parameter value, valid or not, generation returns normally (`Except.ok`); the
hard-coded parameters (`gridSize = 20`, `pEmpty = 0.7`, `pPlatform = 0.2`) do
satisfy the spec's preconditions. -/
theorem generation_total_no_validation (stream : ℕ → ℚ) (gs : ℤ) (pE pP : ℚ) :
    generateRun stream gs pE pP = Except.ok (setupCells stream gs pE pP)
    ∧ specValidParams 20 (7/10) (2/10) :=
  ⟨rfl, by norm_num [specValidParams]⟩

/-- C7 counterexample: generating a level mutates state owned outside the
call — Python's process-global `random` module is reseeded and advanced, so
the global state after `_setup_world` differs from the state before it. -/
theorem generation_mutates_global_rng :
    (setup_world (fun _ => 0) mtDemo "Bob‑omb Islands"
        { seedValue := 5, drawCount := 7 }).2 ≠
      ({ seedValue := 5, drawCount := 7 } : PyRandomState) := by
  decide

/-- C7 amended: the only externally visible mutation is to the global
`random` state, which generation reseeds from the course name and advances by
one draw per non-origin cell; because every generation reseeds first, the
leaked state never influences the classification sequence of any generation
call — the output is independent of the incoming global state. -/
theorem rng_reseeded_no_crosstalk (pyHash : String → ℤ) (mt : ℤ → ℕ → ℚ) (name : String)
    (g g' : PyRandomState) :
    (setup_world pyHash mt name g).1 = (setup_world pyHash mt name g').1
    ∧ (setup_world pyHash mt name g).2 =
        { seedValue := pyHash name, drawCount := (nonOrigin (cellList 20)).length } :=
  ⟨rfl, setup_world_snd pyHash mt name g⟩

/-- C1 (code bug): the generated layout depends on the integer the course
name hashes to.  With the PRNG algorithm fixed (`mtFlip`), two processes
whose built-in `hash` maps "Bob‑omb Islands" to different integers (modelled
by the two hash functions) generate different layouts — Python's `hash` is
salted per process, so the layout is not stable across runs. -/
theorem layout_depends_on_hash_value :
    (setup_world (fun _ => 0) mtFlip "Bob‑omb Islands" { seedValue := 0, drawCount := 0 }).1 ≠
      (setup_world (fun _ => 1) mtFlip "Bob‑omb Islands" { seedValue := 0, drawCount := 0 }).1 := by
  intro h
  have h1 := congrArg (fun l => l[1]?) h
  simp only [setup_world_fst, List.getElem?_cons_succ] at h1
  rw [genCells_getElem?, genCells_getElem?] at h1
  have hnn : (nonOrigin (cellList 20))[0]? = some ((0 : ℤ), (1 : ℤ)) := by
    set_option maxRecDepth 4000 in decide
  rw [hnn] at h1
  simp only [Option.map_some', Option.some.injEq, Prod.mk.injEq] at h1
  have h2 : classify (7/10) (2/10) (mtFlip 0 0) = classify (7/10) (2/10) (mtFlip 1 0) := h1.2
  rw [show mtFlip 0 0 = 0 from rfl, show mtFlip 1 0 = 1 from rfl] at h2
  norm_num [classify] at h2
  exact CellKind.noConfusion h2

end StarRoad

namespace StarRoad

/-- The browser invariant holds right after construction with a non-empty
list. -/
theorem browser_inv_init (cs : List Course) (h : cs ≠ []) :
    BrowserInv (CourseBrowser.init cs) := by
  have hlen : 0 < cs.length := List.length_pos.mpr h
  refine ⟨?_, ?_, ?_, ?_, ?_⟩ <;> (simp [CourseBrowser.init]; try omega)

/-- `set_courses` with a non-empty list re-establishes the invariant. -/
theorem browser_inv_set_courses (b : CourseBrowser) (cs : List Course) (h : cs ≠ [])
    (hb : BrowserInv b) : BrowserInv (b.set_courses cs) := by
  have hlen : 0 < cs.length := List.length_pos.mpr h
  obtain ⟨-, -, -, -, h5⟩ := hb
  refine ⟨?_, ?_, ?_, ?_, ?_⟩ <;> (simp [CourseBrowser.set_courses]; try omega)

/-- `scroll` preserves the invariant. -/
theorem browser_inv_scroll (b : CourseBrowser) (a : ℤ) (hb : BrowserInv b) :
    BrowserInv (b.scroll a) := by
  obtain ⟨h1, h2, h3, h4, h5⟩ := hb
  simp only [CourseBrowser.scroll, clamp, BrowserInv, min_def, max_def]
  split_ifs <;> constructor <;> omega

/-- The invariant is preserved by any sequence of operations whose
`set_courses` lists are all non-empty. -/
theorem browser_inv_runOps (b : CourseBrowser) (ops : List BrowserOp)
    (hb : BrowserInv b) (hops : opsOk ops) : BrowserInv (runOps b ops) := by
  induction ops generalizing b with
  | nil => exact hb
  | cons op ops ih =>
    cases op with
    | scroll a => exact ih (b.scroll a) (browser_inv_scroll b a hb) hops
    | set_courses cs =>
      exact ih (b.set_courses cs) (browser_inv_set_courses b cs hops.1 hb) hops.2

/-- C8: after any sequence of `scroll` and `set_courses` calls with non-empty
course lists, the invariant `0 ≤ selected < len(courses)` and
`scroll_index ≤ selected < scroll_index + visible_rows` holds, and
`get_selected_course` returns an element of the current list. -/
theorem browser_selection_always_valid (cs : List Course) (ops : List BrowserOp)
    (h0 : cs ≠ []) (hops : opsOk ops) :
    BrowserInv (runOps (CourseBrowser.init cs) ops)
    ∧ ∃ c, (runOps (CourseBrowser.init cs) ops).get_selected_course = some c
        ∧ c ∈ (runOps (CourseBrowser.init cs) ops).courses := by
  have hinv := browser_inv_runOps _ ops (browser_inv_init cs h0) hops
  refine ⟨hinv, ?_⟩
  obtain ⟨h1, h2, -, -, -⟩ := hinv
  have hlt : (runOps (CourseBrowser.init cs) ops).selected.toNat <
      (runOps (CourseBrowser.init cs) ops).courses.length := by omega
  exact ⟨_, by simp [CourseBrowser.get_selected_course, List.getElem?_eq_getElem hlt],
    List.getElem_mem hlt⟩

/-- Witness for C8: start from the secret-course list, scroll down, switch to
the shorter boss-world list, scroll past the start. -/
theorem browser_selection_always_valid_witness :
    secret_courses ≠ []
    ∧ opsOk [BrowserOp.scroll 3, BrowserOp.set_courses boss_worlds, BrowserOp.scroll (-5)]
    ∧ BrowserInv (runOps (CourseBrowser.init secret_courses)
        [BrowserOp.scroll 3, BrowserOp.set_courses boss_worlds, BrowserOp.scroll (-5)]) :=
  ⟨by simp [secret_courses], by simp [opsOk, boss_worlds],
   (browser_selection_always_valid secret_courses
      [BrowserOp.scroll 3, BrowserOp.set_courses boss_worlds, BrowserOp.scroll (-5)]
      (by simp [secret_courses]) (by simp [opsOk, boss_worlds])).1⟩

end StarRoad

namespace StorySS

/-- There are sixteen narrative lines (indices 0-15). -/
theorem story_lines_length : story_lines.length = 16 := rfl

/-- Explicit form of the trigger count: one for each trigger index reached. -/
theorem triggersUpTo_eq (i : ℕ) :
    triggersUpTo i =
      (if 5 ≤ i then 1 else 0) + (if 8 ≤ i then 1 else 0)
        + (if 9 ≤ i then 1 else 0) + (if 15 ≤ i then 1 else 0) := by
  simp only [triggersUpTo, star_trigger_indices, List.filter_cons, List.filter_nil,
    decide_eq_true_eq]
  split_ifs <;> simp

/-- Closed form of the session state after `n` presses of SPACE:
`story_index = min n 15`, `star_count` counts the trigger indices reached,
the narrative text is the current line and the prompt is enabled strictly
before the final line. -/
theorem afterPresses_closed (n : ℕ) :
    afterPresses n =
      { story_index := min n 15, star_count := triggersUpTo (min n 15),
        narrative_text := story_lines.getD (min n 15) "",
        prompt_enabled := decide (n < 15) } := by
  induction n with
  | zero =>
    simp [afterPresses, initState, triggersUpTo_eq]
  | succ n ih =>
    rw [afterPresses, ih]
    by_cases h : n < 15
    · have hm : min n 15 = n := by omega
      have hm1 : min (n + 1) 15 = n + 1 := by omega
      simp only [progress_story, story_lines_length, hm, hm1]
      rw [if_pos (by omega)]
      simp only [StoryState.mk.injEq, true_and, and_true, eq_self_iff_true]
      refine ⟨?_, ?_⟩
      · simp only [star_trigger_indices, List.mem_cons, List.not_mem_nil, or_false]
        rw [triggersUpTo_eq, triggersUpTo_eq]
        split_ifs <;> omega
      · split_ifs with hq
        · simp [hq]
        · simp only [decide_eq_decide]
          omega
    · have hm : min n 15 = 15 := by omega
      have hm1 : min (n + 1) 15 = 15 := by omega
      simp only [progress_story, story_lines_length, hm, hm1]
      rw [if_neg (by omega)]
      simp only [StoryState.mk.injEq, decide_eq_decide, true_and, and_true,
        eq_self_iff_true]
      omega

/-- C9: after any number of SPACE presses, `story_index` stays within
`[0, len(story_lines) - 1]`, the displayed narrative text is an element of
`story_lines`, and once the final line is reached a further press changes
nothing. -/
theorem story_index_always_in_range (n : ℕ) :
    (afterPresses n).story_index ≤ story_lines.length - 1
    ∧ (afterPresses n).narrative_text ∈ story_lines
    ∧ ((afterPresses n).story_index = story_lines.length - 1 →
        progress_story (afterPresses n) = afterPresses n) := by
  rw [afterPresses_closed]
  refine ⟨by simp [story_lines_length]; try omega, ?_, ?_⟩
  · have hlt : min n 15 < story_lines.length := by
      rw [story_lines_length]; omega
    simp only [List.getD_eq_getElem?_getD, List.getElem?_eq_getElem hlt, Option.getD_some]
    exact List.getElem_mem hlt
  · intro hfin
    simp only [story_lines_length] at hfin
    rw [progress_story, if_neg (by simp only [story_lines_length]; omega)]

/-- Witness for C9: after fifteen presses the final line is reached, and the
sixteenth press changes nothing. -/
theorem story_index_always_in_range_witness :
    (afterPresses 15).story_index = story_lines.length - 1
    ∧ progress_story (afterPresses 15) = afterPresses 15 :=
  ⟨by decide, (story_index_always_in_range 15).2.2 (by decide)⟩

/-- C10: after any number of presses, `star_count` equals the number of
trigger indices in {5, 8, 9, 15} at most the current `story_index`; it is
non-decreasing over the session and never exceeds 4. -/
theorem star_count_counts_triggers (m n : ℕ) (hmn : m ≤ n) :
    (afterPresses n).star_count = triggersUpTo (afterPresses n).story_index
    ∧ (afterPresses m).star_count ≤ (afterPresses n).star_count
    ∧ (afterPresses n).star_count ≤ 4 := by
  rw [afterPresses_closed, afterPresses_closed]
  dsimp only
  refine ⟨rfl, ?_, ?_⟩
  · rw [triggersUpTo_eq, triggersUpTo_eq]
    split_ifs <;> omega
  · rw [triggersUpTo_eq]
    split_ifs <;> omega

/-- Witness for C10 at six and nine presses (two stars by then: triggers 5
and 8 reached at index 9). -/
theorem star_count_counts_triggers_witness :
    (6 : ℕ) ≤ 9
    ∧ (afterPresses 9).star_count = triggersUpTo (afterPresses 9).story_index
    ∧ (afterPresses 6).star_count ≤ (afterPresses 9).star_count
    ∧ (afterPresses 9).star_count ≤ 4 :=
  ⟨by decide, star_count_counts_triggers 6 9 (by decide)⟩

end StorySS
